import Mathlib

/-!
Shallow embedding of `src/createBufferFromPoint.py`, an ArcGIS geoprocessing
script that (1) builds a WGS 1984 point from dialog-supplied latitude and
longitude, reprojects it to PA State Plane South feet, and (2) runs a
multi-ring buffer on the result.  The external arcpy engine is modelled as an
oracle (`Arcpy`); the script's observable behaviour is a trace of events
(messages, error text, sleeps, engine calls) together with an outcome
(normal return, escaped exception, or a polling loop that never finds the
completion status within the given fuel).
-/

/-- Python runtime values, enough to model exception argument tuples
(`e.args`). -/
inductive PyVal where
  | str (s : String)
  | int (n : Int)
  | noneV
deriving DecidableEq, Repr

/-- A Python exception: class name and argument tuple. -/
structure PyExc where
  name : String
  args : List PyVal
deriving DecidableEq, Repr

/-- The `IndexError` raised by `e.args[0]` on an empty args tuple. -/
def indexErr : PyExc := ⟨"IndexError", [PyVal.str "tuple index out of range"]⟩

/-- The `TypeError` raised by `e.args[0] + str` when `e.args[0]` is not a
string. -/
def typeErr : PyExc := ⟨"TypeError", [PyVal.str "unsupported operand type(s) for +"]⟩

/-- A wall-clock timestamp, the fields `datetime.datetime.now()` exposes to
`strftime("%m-%d-%Y %H:%M:%S")`. -/
structure DateTime where
  month : Nat
  day : Nat
  year : Nat
  hour : Nat
  minute : Nat
  second : Nat
deriving DecidableEq, Repr

/-- Zero-padded two-digit field, as `strftime` renders `%m`, `%d`, `%H`,
`%M`, `%S`. -/
def pad2 (n : Nat) : String :=
  if n < 10 then "0" ++ toString n else toString n

/-- Zero-padded four-digit year, as `strftime` renders `%Y`. -/
def pad4 (n : Nat) : String :=
  if n < 10 then "000" ++ toString n
  else if n < 100 then "00" ++ toString n
  else if n < 1000 then "0" ++ toString n
  else toString n

/-- `currentTime.strftime("%m-%d-%Y %H:%M:%S")` from `addMessage`
(line 53 of the source). -/
def strfTime (t : DateTime) : String :=
  pad2 t.month ++ "-" ++ pad2 t.day ++ "-" ++ pad4 t.year ++ " " ++
    pad2 t.hour ++ ":" ++ pad2 t.minute ++ ":" ++ pad2 t.second

/-- Observable events of one run of the script. -/
inductive Event where
  /-- `arcpy.AddMessage(s)`: text to the host message sink. -/
  | message (s : String)
  /-- `arcpy.AddError(s)`: text to the host error channel. -/
  | errorMsg (s : String)
  /-- `time.sleep(0.2)`: one sleep of `n` tenths of a second. -/
  | sleepTenths (n : Nat)
  /-- `arcpy.GetParameterAsText(i)` returned `v`. -/
  | getParam (i : Nat) (v : String)
  /-- `arcpy.Point(x, y)` constructed (x = longitude, y = latitude). -/
  | mkPoint (x y : String)
  /-- `arcpy.PointGeometry(point, sr)` constructed in spatial reference
  `sr`. -/
  | mkGeometry (sr : Nat)
  /-- `arcpy.Project_management(geometry, outLayer, destSR, transform,
  preserve_shape)` invoked. -/
  | callProject (outLayer : String) (destSR : Nat) (transform : String) (preserve : String)
  /-- `arcpy.MultipleRingBuffer_analysis(point, outLayer, distances, units)`
  invoked. -/
  | callBuffer (point outLayer distances units : String)
  /-- A process exit status being set (e.g. `sys.exit(code)`); the script
  never performs this. -/
  | setExitStatus (code : Int)
deriving DecidableEq, Repr

/-- Is this event an engine-parameter read? -/
def Event.isGetParam : Event → Bool
  | Event.getParam _ _ => true
  | _ => false

/-- Is this event a sleep? -/
def Event.isSleep : Event → Bool
  | Event.sleepTenths _ => true
  | _ => false

/-- Is this event an invocation of the multi-ring buffer operation? -/
def Event.isCallBuffer : Event → Bool
  | Event.callBuffer _ _ _ _ => true
  | _ => false

/-- Is this event the setting of a process exit status? -/
def Event.isSetExit : Event → Bool
  | Event.setExitStatus _ => true
  | _ => false

/-- Is this event error text on the host error channel? -/
def Event.isErrorMsg : Event → Bool
  | Event.errorMsg _ => true
  | _ => false

/-- An arcpy geoprocessing result object: its `status` property as observed
at successive polls of the `while result.status < 4` loop, and the text
`result.getMessages()` returns. -/
structure GPResult where
  status : Nat → Nat
  messagesText : String

/-- Oracle for the external arcpy engine: the dialog parameters
(`GetParameterAsText`) and, for each engine call, whether it raises and
which result object it returns. -/
structure Arcpy where
  params : Nat → String
  mkPointExc : String → String → Option PyExc
  project : String → Nat → String → Except PyExc GPResult
  multiRingBuffer : String → String → String → String → Except PyExc GPResult

/-- `addMessage(message)` (source lines 48-56): format the current time,
then emit exactly one message `"{time} : {message} \n \n"` to the host
message sink. -/
def addMessage (t : DateTime) (message : String) : List Event :=
  [Event.message (strfTime t ++ " : " ++ message ++ " \n \n")]

/-- The `while result.status < 4: time.sleep(0.2)` loop (source lines 90-91
and 120-121), with fuel: `pollCount status fuel i` is the poll index at
which the loop exits when started at poll `i`, or `none` when the status
stays below 4 for all `fuel` remaining polls. -/
def pollCount (status : Nat → Nat) : Nat → Nat → Option Nat
  | 0, _ => Option.none
  | fuel + 1, i => if status i < 4 then pollCount status fuel (i + 1) else some i

/-- Outcome of a step or of the whole script. -/
inductive Outcome where
  /-- Returned normally. -/
  | ok
  /-- An exception escaped unhandled. -/
  | exc (e : PyExc)
  /-- The polling loop never saw status 4 or more within the fuel. -/
  | hang
deriving DecidableEq, Repr

/-- Result of running a step: the events it emitted, the clock index after
its `addMessage` calls, and its outcome. -/
structure StepRes where
  trace : List Event
  clk : Nat
  outcome : Outcome

/-- The body of each `except Exception:` handler (source lines 101-107 and
130-136): evaluate `e.args[0] + '\n \n'` and `AddError` it, then `AddError`
a generic failure line.  Evaluating `e.args[0]` raises `IndexError` on an
empty args tuple; `+` raises `TypeError` when the first argument is not a
string. -/
def handleExc (e : PyExc) : Except PyExc (List Event) :=
  match e.args with
  | [] => Except.error indexErr
  | PyVal.str s :: _ =>
      Except.ok [Event.errorMsg (s ++ "\n \n"),
        Event.errorMsg "There was an error running this tool \n \n"]
  | _ :: _ => Except.error typeErr

/-- Does the exception's args tuple start with a string? Exactly when this
holds does the handler body run without raising. -/
def strFirst (e : PyExc) : Bool :=
  match e.args with
  | PyVal.str _ :: _ => true
  | _ => false

/-- Control flow when an exception `ex` is caught with trace-so-far `t`:
run the handler; if the handler itself raises, the new exception escapes
the function. -/
def onExc (t : List Event) (clk : Nat) (ex : PyExc) : StepRes :=
  match handleExc ex with
  | Except.ok evs => ⟨t ++ evs, clk, Outcome.ok⟩
  | Except.error e2 => ⟨t, clk, Outcome.exc e2⟩

/-- The fixed datum transformation name passed to `Project_management`
(source line 86). -/
def transformName : String := "NAD_1983_To_WGS_1984_1"

/-- `createSPCPoint(lat, lon, outLayer)` (source lines 61-107): build an
`arcpy.Point(lon, lat)`, wrap it in a WGS 1984 (EPSG 4326) geometry, log a
message, project it to EPSG 2272 with the fixed transformation, poll the
result status to completion, surface the result messages, and log success;
any exception from the try block is routed to the `except` handler. -/
def createSPCPoint (A : Arcpy) (clock : Nat → DateTime) (fuel : Nat)
    (lat lon outLayer : String) (clk : Nat) : StepRes :=
  let tP := [Event.mkPoint lon lat]
  match A.mkPointExc lon lat with
  | some e => onExc tP clk e
  | Option.none =>
    let t1 := tP ++ [Event.mkGeometry 4326] ++
      addMessage (clock clk)
        ("Created WGS 1984 point for latitude: " ++ lat ++ " and longitude " ++ lon ++ ".")
    let clk1 := clk + 1
    let t2 := t1 ++ [Event.callProject outLayer 2272 transformName "PRESERVE_SHAPE"]
    match A.project outLayer 2272 transformName with
    | Except.error e => onExc t2 clk1 e
    | Except.ok r =>
      match pollCount r.status fuel 0 with
      | Option.none =>
          ⟨t2 ++ List.replicate fuel (Event.sleepTenths 2), clk1, Outcome.hang⟩
      | some n =>
          let t3 := t2 ++ List.replicate n (Event.sleepTenths 2) ++
            [Event.message (r.messagesText ++ "\n \n")]
          let t4 := t3 ++ addMessage (clock clk1)
            "Reprojected point from WGS 1984 to PA State Plane South (feet)."
          ⟨t4, clk1 + 1, Outcome.ok⟩

/-- `createBuffers(point, outLayer, distances, units)` (source lines
110-136): invoke the multi-ring buffer operation on the given arguments,
poll the result status to completion, surface the result messages, and log
a success message built from the module-level globals `lat` and `lon`
(here `glat`, `glon`); any exception from the try block is routed to the
`except` handler. -/
def createBuffers (A : Arcpy) (clock : Nat → DateTime) (fuel : Nat)
    (glat glon : String) (point outLayer distances units : String) (clk : Nat) : StepRes :=
  let t0 := [Event.callBuffer point outLayer distances units]
  match A.multiRingBuffer point outLayer distances units with
  | Except.error e => onExc t0 clk e
  | Except.ok r =>
    match pollCount r.status fuel 0 with
    | Option.none =>
        ⟨t0 ++ List.replicate fuel (Event.sleepTenths 2), clk, Outcome.hang⟩
    | some n =>
        let t1 := t0 ++ List.replicate n (Event.sleepTenths 2) ++
          [Event.message (r.messagesText ++ "\n \n")]
        let t2 := t1 ++ addMessage (clock clk)
          ("Created buffer(s) around location latitude: " ++ glat ++
            "; longitude: " ++ glon ++ ".")
        ⟨t2, clk + 1, Outcome.ok⟩

/-- Module-level parameter acquisition (source lines 34-44): six
`GetParameterAsText` reads, indices 0 through 5. -/
def acquireParams (A : Arcpy) : List Event :=
  [Event.getParam 0 (A.params 0), Event.getParam 1 (A.params 1),
   Event.getParam 2 (A.params 2), Event.getParam 3 (A.params 3),
   Event.getParam 4 (A.params 4), Event.getParam 5 (A.params 5)]

/-- The module-level prefix (source lines 34-44 and 140): the six
parameter reads followed by the opening message. -/
def preTrace (A : Arcpy) (clock : Nat → DateTime) : List Event :=
  acquireParams A ++
    addMessage (clock 0) "Converting WGS 1984 point to PA State Plane South (feet) point."

/-- Continuation after `createBuffers` returned `s2` with accumulated trace
`pre`: on normal return, log the completion message (source line 149);
an escaped exception or hang aborts the script there. -/
def runStage2 (clock : Nat → DateTime) (pre : List Event) (s2 : StepRes) :
    List Event × Outcome :=
  match s2.outcome with
  | Outcome.ok =>
      (pre ++ s2.trace ++
        addMessage (clock s2.clk) "Create Buffer from Point tool has completed running.",
       Outcome.ok)
  | o => (pre ++ s2.trace, o)

/-- Continuation after `createSPCPoint` returned `s1`: on normal return,
run `createBuffers(spcPoint, pointBuffer, buffDist, buffUnits)` (source
line 146); an escaped exception or hang aborts the script there. -/
def runStage1 (A : Arcpy) (clock : Nat → DateTime) (fuel : Nat) (s1 : StepRes) :
    List Event × Outcome :=
  match s1.outcome with
  | Outcome.ok =>
      runStage2 clock (preTrace A clock ++ s1.trace)
        (createBuffers A clock fuel (A.params 0) (A.params 1)
          (A.params 2) (A.params 5) (A.params 3) (A.params 4) s1.clk)
  | o => (preTrace A clock ++ s1.trace, o)

/-- The module-level straight-line sequence (source lines 34-44 and
139-149): read the six dialog parameters, log the opening message, run
`createSPCPoint(lat, lon, spcPoint)`, then `createBuffers(spcPoint,
pointBuffer, buffDist, buffUnits)`, then log the completion message. -/
def runTool (A : Arcpy) (clock : Nat → DateTime) (fuel : Nat) : List Event × Outcome :=
  runStage1 A clock fuel
    (createSPCPoint A clock fuel (A.params 0) (A.params 1) (A.params 2) 1)

/-- Modelled from the spec: the external arcpy engine is not part of src/.
Is the string a decimal numeric literal (optional sign, digits, optional
fractional part)?  Used to model float coercion of the dialog strings. -/
def numBody (cs : List Char) : Bool :=
  let intPart := cs.takeWhile Char.isDigit
  let rest := cs.dropWhile Char.isDigit
  match rest with
  | [] => !intPart.isEmpty
  | c :: frac =>
      c == '.' && (!intPart.isEmpty || !frac.isEmpty) && frac.all Char.isDigit

/-- Modelled from the spec: numeric check including an optional leading
sign. -/
def isNumeric (s : String) : Bool :=
  match s.data with
  | '+' :: cs => numBody cs
  | '-' :: cs => numBody cs
  | cs => numBody cs

/-- Modelled from the spec: `arcpy.Point` coerces its arguments to floats
and raises a `ValueError` carrying a single error string when an argument
is non-numeric (the spec's "supplying a non-numeric latitude causes the
projection step to log an error"). -/
def modelMkPointExc (x y : String) : Option PyExc :=
  if isNumeric x then
    if isNumeric y then Option.none
    else some ⟨"ValueError", [PyVal.str ("could not convert string to float: " ++ y)]⟩
  else some ⟨"ValueError", [PyVal.str ("could not convert string to float: " ++ x)]⟩

/-- Modelled from the spec: an arcpy engine whose `Point` constructor
behaves as `modelMkPointExc` and whose geoprocessing calls have the fixed
outcomes `proj` and `buf`. -/
def modelArcpy (params : Nat → String) (proj buf : Except PyExc GPResult) : Arcpy :=
  { params := params
    mkPointExc := modelMkPointExc
    project := fun _ _ _ => proj
    multiRingBuffer := fun _ _ _ _ => buf }

/-- Classifier for every event `createSPCPoint` can emit: geometry is built
only in reference 4326, projection is invoked only at destination 2272 with
the fixed transformation, sleeps only last 0.2 s, and no buffer call,
parameter read, or exit-status event occurs. -/
def spcEvent (outLayer : String) (e : Event) : Bool :=
  match e with
  | Event.mkPoint _ _ => true
  | Event.mkGeometry sr => sr == 4326
  | Event.message _ => true
  | Event.errorMsg _ => true
  | Event.sleepTenths n => n == 2
  | Event.callProject o d t p =>
      o == outLayer && d == 2272 && t == transformName && p == "PRESERVE_SHAPE"
  | _ => false

/-- Classifier for every event `createBuffers` can emit: the single engine
call carries exactly the four argument strings, sleeps only last 0.2 s, and
no projection call, parameter read, or exit-status event occurs. -/
def bufEvent (point outLayer distances units : String) (e : Event) : Bool :=
  match e with
  | Event.callBuffer p o d u =>
      p == point && o == outLayer && d == distances && u == units
  | Event.message _ => true
  | Event.errorMsg _ => true
  | Event.sleepTenths n => n == 2
  | _ => false

/-- A fixed wall clock for concrete instantiations. -/
def cClock : Nat → DateTime := fun _ => ⟨2, 13, 2017, 10, 0, 0⟩

/-- A result object that is complete at the first poll. -/
def okResult : GPResult := ⟨fun _ => 4, "gp messages"⟩

/-- An exception with an empty args tuple (`Exception()`). -/
def emptyArgsExc : PyExc := ⟨"Exception", []⟩

/-- A well-formed engine exception: args tuple starts with a string. -/
def wfExc : PyExc := ⟨"RuntimeError", [PyVal.str "engine failure"]⟩

/-- Concrete environment: projection raises an exception with an empty args
tuple; buffering would succeed. -/
def cexEnv : Arcpy :=
  { params := fun i => "p" ++ toString i
    mkPointExc := fun _ _ => Option.none
    project := fun _ _ _ => Except.error emptyArgsExc
    multiRingBuffer := fun _ _ _ _ => Except.ok okResult }

/-- Concrete environment: projection raises a well-formed exception;
buffering succeeds. -/
def wfFailEnv : Arcpy :=
  { params := fun i => "p" ++ toString i
    mkPointExc := fun _ _ => Option.none
    project := fun _ _ _ => Except.error wfExc
    multiRingBuffer := fun _ _ _ _ => Except.ok okResult }

/-- Concrete environment: both engine calls succeed immediately. -/
def okEnv : Arcpy :=
  { params := fun i => "p" ++ toString i
    mkPointExc := fun _ _ => Option.none
    project := fun _ _ _ => Except.ok okResult
    multiRingBuffer := fun _ _ _ _ => Except.ok okResult }

/- ------------------------------------------------------------------ -/
/- Helper lemmas                                                       -/
/- ------------------------------------------------------------------ -/

theorem handleExc_ok_shape (e : PyExc) (evs : List Event)
    (h : handleExc e = Except.ok evs) :
    ∃ s, evs = [Event.errorMsg (s ++ "\n \n"),
      Event.errorMsg "There was an error running this tool \n \n"] := by
  unfold handleExc at h
  cases hargs : e.args with
  | nil => rw [hargs] at h; exact absurd h (by simp)
  | cons v rest =>
    rw [hargs] at h
    cases v with
    | str s =>
      simp only [Except.ok.injEq] at h
      exact ⟨s, h.symm⟩
    | int n => exact absurd h (by simp)
    | noneV => exact absurd h (by simp)

theorem handleExc_ok_of_strFirst (e : PyExc) (h : strFirst e = true) :
    ∃ s, handleExc e =
      Except.ok [Event.errorMsg (s ++ "\n \n"),
        Event.errorMsg "There was an error running this tool \n \n"] := by
  unfold strFirst at h
  unfold handleExc
  cases hargs : e.args with
  | nil => rw [hargs] at h; simp at h
  | cons v rest =>
    rw [hargs] at h
    cases v with
    | str s => exact ⟨s, rfl⟩
    | int n => simp at h
    | noneV => simp at h

theorem onExc_mem (t : List Event) (clk : Nat) (ex : PyExc) :
    ∀ e ∈ (onExc t clk ex).trace, e ∈ t ∨ ∃ s, e = Event.errorMsg s := by
  unfold onExc
  split
  · rename_i evs h
    obtain ⟨s, hs⟩ := handleExc_ok_shape ex evs h
    subst hs
    intro e he
    simp only [List.mem_append] at he
    rcases he with he | he
    · exact Or.inl he
    · simp only [List.mem_cons, List.mem_singleton] at he
      rcases he with he | he | he
      · exact Or.inr ⟨_, he⟩
      · exact Or.inr ⟨_, he⟩
      · cases he
  · intro e he
    exact Or.inl he

theorem onExc_ok_of_strFirst (t : List Event) (clk : Nat) (ex : PyExc)
    (h : strFirst ex = true) :
    (onExc t clk ex).outcome = Outcome.ok ∧
      Event.errorMsg "There was an error running this tool \n \n" ∈ (onExc t clk ex).trace := by
  obtain ⟨s, hs⟩ := handleExc_ok_of_strFirst ex h
  unfold onExc
  rw [hs]
  exact ⟨rfl, by simp⟩

theorem onExc_empty_args (t : List Event) (clk : Nat) (ex : PyExc)
    (h : ex.args = []) : onExc t clk ex = ⟨t, clk, Outcome.exc indexErr⟩ := by
  unfold onExc handleExc
  rw [h]

theorem onExc_nonstr_args (t : List Event) (clk : Nat) (ex : PyExc) (v : PyVal)
    (rest : List PyVal) (h : ex.args = v :: rest) (hv : ∀ s, v ≠ PyVal.str s) :
    onExc t clk ex = ⟨t, clk, Outcome.exc typeErr⟩ := by
  unfold onExc handleExc
  rw [h]
  cases v with
  | str s => exact absurd rfl (hv s)
  | int n => rfl
  | noneV => rfl

theorem pollCount_some_ge (status : Nat → Nat) :
    ∀ fuel i n, pollCount status fuel i = some n → 4 ≤ status n := by
  intro fuel
  induction fuel with
  | zero => intro i n h; simp [pollCount] at h
  | succ f ih =>
    intro i n h
    by_cases hs : status i < 4
    · rw [pollCount, if_pos hs] at h
      exact ih (i + 1) n h
    · rw [pollCount, if_neg hs] at h
      injection h with h
      subst h
      omega

theorem pollCount_none_of_low (status : Nat → Nat) (h : ∀ j, status j < 4) :
    ∀ fuel i, pollCount status fuel i = Option.none := by
  intro fuel
  induction fuel with
  | zero => intro i; rfl
  | succ f ih =>
    intro i
    rw [pollCount, if_pos (h i)]
    exact ih (i + 1)

/-- The trace `createSPCPoint` has accumulated at the moment the project
operation is invoked. -/
def spcPre (clock : Nat → DateTime) (lat lon outLayer : String) (clk : Nat) : List Event :=
  [Event.mkPoint lon lat, Event.mkGeometry 4326] ++
    addMessage (clock clk)
      ("Created WGS 1984 point for latitude: " ++ lat ++ " and longitude " ++ lon ++ ".") ++
    [Event.callProject outLayer 2272 transformName "PRESERVE_SHAPE"]

theorem createSPCPoint_point_exc (A : Arcpy) (clock : Nat → DateTime) (fuel : Nat)
    (lat lon outLayer : String) (clk : Nat) (ex : PyExc)
    (h : A.mkPointExc lon lat = some ex) :
    createSPCPoint A clock fuel lat lon outLayer clk =
      onExc [Event.mkPoint lon lat] clk ex := by
  unfold createSPCPoint
  rw [h]

theorem createSPCPoint_project_exc (A : Arcpy) (clock : Nat → DateTime) (fuel : Nat)
    (lat lon outLayer : String) (clk : Nat) (ex : PyExc)
    (hP : A.mkPointExc lon lat = Option.none)
    (h : A.project outLayer 2272 transformName = Except.error ex) :
    createSPCPoint A clock fuel lat lon outLayer clk =
      onExc (spcPre clock lat lon outLayer clk) (clk + 1) ex := by
  unfold createSPCPoint
  rw [hP, h]
  rfl

theorem createSPCPoint_hang (A : Arcpy) (clock : Nat → DateTime) (fuel : Nat)
    (lat lon outLayer : String) (clk : Nat) (r : GPResult)
    (hP : A.mkPointExc lon lat = Option.none)
    (h : A.project outLayer 2272 transformName = Except.ok r)
    (hc : pollCount r.status fuel 0 = Option.none) :
    createSPCPoint A clock fuel lat lon outLayer clk =
      ⟨spcPre clock lat lon outLayer clk ++ List.replicate fuel (Event.sleepTenths 2),
        clk + 1, Outcome.hang⟩ := by
  unfold createSPCPoint
  rw [hP, h]
  dsimp only
  rw [hc]
  simp [spcPre, addMessage]

theorem createSPCPoint_ok (A : Arcpy) (clock : Nat → DateTime) (fuel : Nat)
    (lat lon outLayer : String) (clk : Nat) (r : GPResult) (n : Nat)
    (hP : A.mkPointExc lon lat = Option.none)
    (h : A.project outLayer 2272 transformName = Except.ok r)
    (hc : pollCount r.status fuel 0 = some n) :
    createSPCPoint A clock fuel lat lon outLayer clk =
      ⟨spcPre clock lat lon outLayer clk ++ List.replicate n (Event.sleepTenths 2) ++
          [Event.message (r.messagesText ++ "\n \n")] ++
          addMessage (clock (clk + 1))
            "Reprojected point from WGS 1984 to PA State Plane South (feet).",
        clk + 2, Outcome.ok⟩ := by
  unfold createSPCPoint
  rw [hP, h]
  dsimp only
  rw [hc]
  simp [spcPre, addMessage]

theorem createBuffers_exc (A : Arcpy) (clock : Nat → DateTime) (fuel : Nat)
    (glat glon point outLayer distances units : String) (clk : Nat) (ex : PyExc)
    (h : A.multiRingBuffer point outLayer distances units = Except.error ex) :
    createBuffers A clock fuel glat glon point outLayer distances units clk =
      onExc [Event.callBuffer point outLayer distances units] clk ex := by
  unfold createBuffers
  rw [h]

theorem createBuffers_hang (A : Arcpy) (clock : Nat → DateTime) (fuel : Nat)
    (glat glon point outLayer distances units : String) (clk : Nat) (r : GPResult)
    (h : A.multiRingBuffer point outLayer distances units = Except.ok r)
    (hc : pollCount r.status fuel 0 = Option.none) :
    createBuffers A clock fuel glat glon point outLayer distances units clk =
      ⟨[Event.callBuffer point outLayer distances units] ++
          List.replicate fuel (Event.sleepTenths 2), clk, Outcome.hang⟩ := by
  unfold createBuffers
  rw [h]
  dsimp only
  rw [hc]

theorem createBuffers_ok (A : Arcpy) (clock : Nat → DateTime) (fuel : Nat)
    (glat glon point outLayer distances units : String) (clk : Nat) (r : GPResult) (n : Nat)
    (h : A.multiRingBuffer point outLayer distances units = Except.ok r)
    (hc : pollCount r.status fuel 0 = some n) :
    createBuffers A clock fuel glat glon point outLayer distances units clk =
      ⟨[Event.callBuffer point outLayer distances units] ++
          List.replicate n (Event.sleepTenths 2) ++
          [Event.message (r.messagesText ++ "\n \n")] ++
          addMessage (clock clk)
            ("Created buffer(s) around location latitude: " ++ glat ++
              "; longitude: " ++ glon ++ "."),
        clk + 1, Outcome.ok⟩ := by
  unfold createBuffers
  rw [h]
  dsimp only
  rw [hc]

theorem spcEvent_of_mem_spcPre (clock : Nat → DateTime) (lat lon outLayer : String)
    (clk : Nat) : ∀ e ∈ spcPre clock lat lon outLayer clk, spcEvent outLayer e = true := by
  intro e he
  simp [spcPre, addMessage] at he
  rcases he with rfl | rfl | rfl | rfl <;> simp [spcEvent]

theorem createSPCPoint_shape (A : Arcpy) (clock : Nat → DateTime) (fuel : Nat)
    (lat lon outLayer : String) (clk : Nat) :
    ∀ e ∈ (createSPCPoint A clock fuel lat lon outLayer clk).trace,
      spcEvent outLayer e = true := by
  intro e he
  cases hP : A.mkPointExc lon lat with
  | some ex =>
    rw [createSPCPoint_point_exc A clock fuel lat lon outLayer clk ex hP] at he
    rcases onExc_mem _ _ _ e he with h | ⟨s, rfl⟩
    · simp at h; subst h; rfl
    · rfl
  | none =>
    cases hPr : A.project outLayer 2272 transformName with
    | error ex =>
      rw [createSPCPoint_project_exc A clock fuel lat lon outLayer clk ex hP hPr] at he
      rcases onExc_mem _ _ _ e he with h | ⟨s, rfl⟩
      · exact spcEvent_of_mem_spcPre clock lat lon outLayer clk e h
      · rfl
    | ok r =>
      cases hc : pollCount r.status fuel 0 with
      | none =>
        rw [createSPCPoint_hang A clock fuel lat lon outLayer clk r hP hPr hc] at he
        simp only [List.mem_append] at he
        rcases he with h | h
        · exact spcEvent_of_mem_spcPre clock lat lon outLayer clk e h
        · rw [List.eq_of_mem_replicate h]; rfl
      | some n =>
        rw [createSPCPoint_ok A clock fuel lat lon outLayer clk r n hP hPr hc] at he
        simp only [List.mem_append] at he
        rcases he with ((h | h) | h) | h
        · exact spcEvent_of_mem_spcPre clock lat lon outLayer clk e h
        · rw [List.eq_of_mem_replicate h]; rfl
        · simp at h; subst h; rfl
        · simp [addMessage] at h; subst h; rfl

theorem createBuffers_shape (A : Arcpy) (clock : Nat → DateTime) (fuel : Nat)
    (glat glon point outLayer distances units : String) (clk : Nat) :
    ∀ e ∈ (createBuffers A clock fuel glat glon point outLayer distances units clk).trace,
      bufEvent point outLayer distances units e = true := by
  intro e he
  cases hB : A.multiRingBuffer point outLayer distances units with
  | error ex =>
    rw [createBuffers_exc A clock fuel glat glon point outLayer distances units clk ex hB] at he
    rcases onExc_mem _ _ _ e he with h | ⟨s, rfl⟩
    · simp at h; subst h; simp [bufEvent]
    · rfl
  | ok r =>
    cases hc : pollCount r.status fuel 0 with
    | none =>
      rw [createBuffers_hang A clock fuel glat glon point outLayer distances units clk r hB hc] at he
      simp only [List.mem_append] at he
      rcases he with h | h
      · simp at h; subst h; simp [bufEvent]
      · rw [List.eq_of_mem_replicate h]; rfl
    | some n =>
      rw [createBuffers_ok A clock fuel glat glon point outLayer distances units clk r n hB hc] at he
      simp only [List.mem_append] at he
      rcases he with ((h | h) | h) | h
      · simp at h; subst h; simp [bufEvent]
      · rw [List.eq_of_mem_replicate h]; rfl
      · simp at h; subst h; rfl
      · simp [addMessage] at h; subst h; rfl

theorem mem_onExc_of_mem (t : List Event) (clk : Nat) (ex : PyExc) :
    ∀ x ∈ t, x ∈ (onExc t clk ex).trace := by
  unfold onExc
  split
  · intro x hx; exact List.mem_append_left _ hx
  · intro x hx; exact hx

theorem mem_preTrace (A : Arcpy) (clock : Nat → DateTime) :
    ∀ e ∈ preTrace A clock, e ∈ acquireParams A ∨ ∃ s, e = Event.message s := by
  intro e he
  simp only [preTrace, addMessage, List.mem_append, List.mem_singleton] at he
  rcases he with h | h
  · exact Or.inl h
  · exact Or.inr ⟨_, h⟩

theorem runStage2_shape (clock : Nat → DateTime) (pre : List Event) (s2 : StepRes) :
    ∀ e ∈ (runStage2 clock pre s2).1,
      e ∈ pre ∨ e ∈ s2.trace ∨ ∃ s, e = Event.message s := by
  unfold runStage2
  split
  · intro e he
    simp only [addMessage, List.mem_append, List.mem_singleton] at he
    rcases he with (h | h) | h
    · exact Or.inl h
    · exact Or.inr (Or.inl h)
    · exact Or.inr (Or.inr ⟨_, h⟩)
  · intro e he
    rcases List.mem_append.mp he with h | h
    · exact Or.inl h
    · exact Or.inr (Or.inl h)

theorem mem_runStage2_left (clock : Nat → DateTime) (pre : List Event) (s2 : StepRes) :
    ∀ x ∈ pre, x ∈ (runStage2 clock pre s2).1 := by
  unfold runStage2
  split
  · intro x hx; exact List.mem_append_left _ (List.mem_append_left _ hx)
  · intro x hx; exact List.mem_append_left _ hx

theorem mem_runStage2_right (clock : Nat → DateTime) (pre : List Event) (s2 : StepRes) :
    ∀ x ∈ s2.trace, x ∈ (runStage2 clock pre s2).1 := by
  unfold runStage2
  split
  · intro x hx
    exact List.mem_append_left _ (List.mem_append_right _ hx)
  · intro x hx; exact List.mem_append_right _ hx

theorem runTool_ok_step1 (A : Arcpy) (clock : Nat → DateTime) (fuel : Nat)
    (h : (createSPCPoint A clock fuel (A.params 0) (A.params 1) (A.params 2) 1).outcome
        = Outcome.ok) :
    runTool A clock fuel =
      runStage2 clock
        (preTrace A clock ++
          (createSPCPoint A clock fuel (A.params 0) (A.params 1) (A.params 2) 1).trace)
        (createBuffers A clock fuel (A.params 0) (A.params 1) (A.params 2) (A.params 5)
          (A.params 3) (A.params 4)
          (createSPCPoint A clock fuel (A.params 0) (A.params 1) (A.params 2) 1).clk) := by
  unfold runTool runStage1
  rw [h]

theorem runTool_bad_step1 (A : Arcpy) (clock : Nat → DateTime) (fuel : Nat)
    (h : (createSPCPoint A clock fuel (A.params 0) (A.params 1) (A.params 2) 1).outcome
        ≠ Outcome.ok) :
    runTool A clock fuel =
      (preTrace A clock ++
        (createSPCPoint A clock fuel (A.params 0) (A.params 1) (A.params 2) 1).trace,
       (createSPCPoint A clock fuel (A.params 0) (A.params 1) (A.params 2) 1).outcome) := by
  unfold runTool runStage1
  cases ho : (createSPCPoint A clock fuel (A.params 0) (A.params 1) (A.params 2) 1).outcome with
  | ok => exact absurd ho h
  | exc ex => rfl
  | hang => rfl

theorem runTool_shape (A : Arcpy) (clock : Nat → DateTime) (fuel : Nat) :
    ∀ e ∈ (runTool A clock fuel).1,
      e ∈ acquireParams A ∨ (∃ s, e = Event.message s) ∨
        spcEvent (A.params 2) e = true ∨
        bufEvent (A.params 2) (A.params 5) (A.params 3) (A.params 4) e = true := by
  intro e he
  by_cases h1 : (createSPCPoint A clock fuel (A.params 0) (A.params 1) (A.params 2) 1).outcome
      = Outcome.ok
  · rw [runTool_ok_step1 A clock fuel h1] at he
    rcases runStage2_shape _ _ _ e he with h | h | ⟨s, rfl⟩
    · rcases List.mem_append.mp h with h | h
      · rcases mem_preTrace A clock e h with h | ⟨s, rfl⟩
        · exact Or.inl h
        · exact Or.inr (Or.inl ⟨_, rfl⟩)
      · exact Or.inr (Or.inr (Or.inl (createSPCPoint_shape _ _ _ _ _ _ _ e h)))
    · exact Or.inr (Or.inr (Or.inr (createBuffers_shape _ _ _ _ _ _ _ _ _ _ e h)))
    · exact Or.inr (Or.inl ⟨_, rfl⟩)
  · rw [runTool_bad_step1 A clock fuel h1] at he
    rcases List.mem_append.mp he with h | h
    · rcases mem_preTrace A clock e h with h | ⟨s, rfl⟩
      · exact Or.inl h
      · exact Or.inr (Or.inl ⟨_, rfl⟩)
    · exact Or.inr (Or.inr (Or.inl (createSPCPoint_shape _ _ _ _ _ _ _ e h)))

theorem acquireParams_getParam (A : Arcpy) :
    ∀ e ∈ acquireParams A, Event.isGetParam e = true := by
  intro e he
  simp only [acquireParams, List.mem_cons, List.mem_singleton, List.not_mem_nil, or_false] at he
  rcases he with rfl | rfl | rfl | rfl | rfl | rfl <;> rfl

theorem spcEvent_cases (outLayer : String) (e : Event) (h : spcEvent outLayer e = true) :
    Event.isGetParam e = false ∧ Event.isSetExit e = false ∧ Event.isCallBuffer e = false := by
  cases e <;>
    first
      | exact ⟨rfl, rfl, rfl⟩
      | simp [spcEvent] at h

theorem bufEvent_cases (point outLayer distances units : String) (e : Event)
    (h : bufEvent point outLayer distances units e = true) :
    Event.isGetParam e = false ∧ Event.isSetExit e = false := by
  cases e <;>
    first
      | exact ⟨rfl, rfl⟩
      | simp [bufEvent] at h

theorem spcEvent_sleep (outLayer : String) (n : Nat)
    (h : spcEvent outLayer (Event.sleepTenths n) = true) : n = 2 := by
  simp [spcEvent] at h
  exact h

theorem bufEvent_sleep (point outLayer distances units : String) (n : Nat)
    (h : bufEvent point outLayer distances units (Event.sleepTenths n) = true) : n = 2 := by
  simp [bufEvent] at h
  exact h

theorem bufEvent_callBuffer (point outLayer distances units p o d u : String)
    (h : bufEvent point outLayer distances units (Event.callBuffer p o d u) = true) :
    p = point ∧ o = outLayer ∧ d = distances ∧ u = units := by
  simp [bufEvent] at h
  exact ⟨h.1.1.1, h.1.1.2, h.1.2, h.2⟩

theorem callBuffer_mem_createBuffers (A : Arcpy) (clock : Nat → DateTime) (fuel : Nat)
    (glat glon point outLayer distances units : String) (clk : Nat) :
    Event.callBuffer point outLayer distances units ∈
      (createBuffers A clock fuel glat glon point outLayer distances units clk).trace := by
  cases hB : A.multiRingBuffer point outLayer distances units with
  | error ex =>
    rw [createBuffers_exc A clock fuel glat glon point outLayer distances units clk ex hB]
    exact mem_onExc_of_mem _ _ _ _ (by simp)
  | ok r =>
    cases hc : pollCount r.status fuel 0 with
    | none =>
      rw [createBuffers_hang A clock fuel glat glon point outLayer distances units clk r hB hc]
      simp
    | some n =>
      rw [createBuffers_ok A clock fuel glat glon point outLayer distances units clk r n hB hc]
      simp

theorem spcEvent_callProject (outLayer o t p : String) (d : Nat)
    (h : spcEvent outLayer (Event.callProject o d t p) = true) :
    o = outLayer ∧ d = 2272 ∧ t = transformName ∧ p = "PRESERVE_SHAPE" := by
  simp [spcEvent] at h
  exact ⟨h.1.1.1, h.1.1.2, h.1.2, h.2⟩

theorem spcEvent_mkGeometry (outLayer : String) (sr : Nat)
    (h : spcEvent outLayer (Event.mkGeometry sr) = true) : sr = 4326 := by
  simp [spcEvent] at h
  exact h

theorem pollCount_some_lt (status : Nat → Nat) :
    ∀ fuel i n, pollCount status fuel i = some n →
      ∀ j, i ≤ j → j < n → status j < 4 := by
  intro fuel
  induction fuel with
  | zero => intro i n h; simp [pollCount] at h
  | succ f ih =>
    intro i n h j hij hjn
    by_cases hs : status i < 4
    · rw [pollCount, if_pos hs] at h
      rcases eq_or_lt_of_le hij with rfl | hlt
      · exact hs
      · exact ih (i + 1) n h j hlt hjn
    · rw [pollCount, if_neg hs] at h
      injection h with h
      subst h
      omega

/-- C3: in each step, after invoking the external operation the program
polls the result status with a fixed 0.2 s sleep, exits the loop only once
the status reaches the completion code 4 (every earlier poll saw a status
below 4), and has no timeout: when the status never reaches 4 the loop
finds no exit for any amount of fuel (an unbounded wait). -/
theorem c3_poll_loop (status : Nat → Nat) (fuel i : Nat) :
    (∀ n, pollCount status fuel i = some n → 4 ≤ status n)
    ∧ ((∀ j, status j < 4) → pollCount status fuel i = Option.none)
    ∧ (∀ n, pollCount status fuel i = some n → ∀ j, i ≤ j → j < n → status j < 4)
    ∧ (∀ A clock lat lon outLayer clk n,
        Event.sleepTenths n ∈ (createSPCPoint A clock fuel lat lon outLayer clk).trace →
          n = 2)
    ∧ (∀ A clock glat glon point outLayer distances units clk n,
        Event.sleepTenths n ∈
            (createBuffers A clock fuel glat glon point outLayer distances units clk).trace →
          n = 2) := by
  refine ⟨fun n h => pollCount_some_ge status fuel i n h,
    fun h => pollCount_none_of_low status h fuel i,
    fun n h => pollCount_some_lt status fuel i n h, ?_, ?_⟩
  · intro A clock lat lon outLayer clk n hn
    exact spcEvent_sleep outLayer n
      (createSPCPoint_shape A clock fuel lat lon outLayer clk _ hn)
  · intro A clock glat glon point outLayer distances units clk n hn
    exact bufEvent_sleep point outLayer distances units n
      (createBuffers_shape A clock fuel glat glon point outLayer distances units clk _ hn)

/-- A result whose first poll reads status 0 and whose later polls read 4. -/
def slowResult : GPResult := ⟨fun k => if k = 0 then 0 else 4, "gp messages"⟩

/-- Concrete environment: both engine calls succeed with `slowResult`, so
each polling loop sleeps exactly once. -/
def slowEnv : Arcpy :=
  { params := fun i => "p" ++ toString i
    mkPointExc := fun _ _ => Option.none
    project := fun _ _ _ => Except.ok slowResult
    multiRingBuffer := fun _ _ _ _ => Except.ok slowResult }

theorem c3_poll_loop_witness :
    4 ≤ (fun k => if k < 2 then 0 else 7) 2
    ∧ pollCount (fun _ => 0) 6 0 = Option.none
    ∧ (fun k => if k < 2 then 0 else 7) 0 < 4
    ∧ 2 = 2
    ∧ 2 = 2 := by
  refine ⟨?_, ?_, ?_, ?_, ?_⟩
  · exact (c3_poll_loop (fun k => if k < 2 then 0 else 7) 6 0).1 2 (by rfl)
  · exact (c3_poll_loop (fun _ => 0) 6 0).2.1 (fun j => by decide)
  · exact (c3_poll_loop (fun k => if k < 2 then 0 else 7) 6 0).2.2.1 2 (by rfl) 0
      (by decide) (by decide)
  · exact (c3_poll_loop (fun k => k) 6 0).2.2.2.1 slowEnv cClock "la" "lo" "ol" 1 2
      (by decide)
  · exact (c3_poll_loop (fun k => k) 6 0).2.2.2.2 slowEnv cClock "la" "lo" "pt" "ol"
      "1;2" "Miles" 1 2 (by decide)

/-- C4: for every latitude/longitude input, `createSPCPoint` constructs the
point geometry in the fixed reference WGS 1984 (EPSG 4326) and invokes the
project operation with the fixed destination EPSG 2272 and the fixed datum
transformation "NAD_1983_To_WGS_1984_1"; none of the three values depends
on any input (they are the same for all `lat`, `lon`, `outLayer`). -/
theorem c4_fixed_references (A : Arcpy) (clock : Nat → DateTime) (fuel : Nat)
    (lat lon outLayer : String) (clk : Nat) :
    (∀ sr, Event.mkGeometry sr ∈
        (createSPCPoint A clock fuel lat lon outLayer clk).trace → sr = 4326)
    ∧ (∀ o d t p, Event.callProject o d t p ∈
          (createSPCPoint A clock fuel lat lon outLayer clk).trace →
        o = outLayer ∧ d = 2272 ∧ t = "NAD_1983_To_WGS_1984_1" ∧ p = "PRESERVE_SHAPE")
    ∧ (A.mkPointExc lon lat = Option.none →
        Event.callProject outLayer 2272 "NAD_1983_To_WGS_1984_1" "PRESERVE_SHAPE" ∈
          (createSPCPoint A clock fuel lat lon outLayer clk).trace) := by
  refine ⟨?_, ?_, ?_⟩
  · intro sr h
    exact spcEvent_mkGeometry outLayer sr
      (createSPCPoint_shape A clock fuel lat lon outLayer clk _ h)
  · intro o d t p h
    have h2 := spcEvent_callProject outLayer o t p d
      (createSPCPoint_shape A clock fuel lat lon outLayer clk _ h)
    exact ⟨h2.1, h2.2.1, by rw [h2.2.2.1]; rfl, h2.2.2.2⟩
  · intro hP
    have hmem : Event.callProject outLayer 2272 transformName "PRESERVE_SHAPE" ∈
        spcPre clock lat lon outLayer clk := by simp [spcPre]
    cases hPr : A.project outLayer 2272 transformName with
    | error ex =>
      rw [createSPCPoint_project_exc A clock fuel lat lon outLayer clk ex hP hPr]
      exact mem_onExc_of_mem _ _ _ _ hmem
    | ok r =>
      cases hc : pollCount r.status fuel 0 with
      | none =>
        rw [createSPCPoint_hang A clock fuel lat lon outLayer clk r hP hPr hc]
        exact List.mem_append_left _ hmem
      | some n =>
        rw [createSPCPoint_ok A clock fuel lat lon outLayer clk r n hP hPr hc]
        exact List.mem_append_left _ (List.mem_append_left _ (List.mem_append_left _ hmem))

theorem c4_fixed_references_witness :
    (4326 = 4326)
    ∧ ("ol" = "ol" ∧ (2272 : Nat) = 2272
        ∧ "NAD_1983_To_WGS_1984_1" = "NAD_1983_To_WGS_1984_1"
        ∧ "PRESERVE_SHAPE" = "PRESERVE_SHAPE")
    ∧ Event.callProject "ol" 2272 "NAD_1983_To_WGS_1984_1" "PRESERVE_SHAPE" ∈
        (createSPCPoint okEnv cClock 3 "40.0" "-77.0" "ol" 1).trace := by
  refine ⟨?_, ?_, ?_⟩
  · exact (c4_fixed_references okEnv cClock 3 "40.0" "-77.0" "ol" 1).1 4326 (by decide)
  · exact (c4_fixed_references okEnv cClock 3 "40.0" "-77.0" "ol" 1).2.1 "ol" 2272
      "NAD_1983_To_WGS_1984_1" "PRESERVE_SHAPE" (by decide)
  · exact (c4_fixed_references okEnv cClock 3 "40.0" "-77.0" "ol" 1).2.2 rfl

/-- C8: for every call, the messaging helper `addMessage` emits exactly one
message to the host message sink, consisting of the wall-clock time
formatted month-day-year hour:minute:second (`strfTime`), the separator
`" : "`, and the caller-supplied string; it is a pure function of its two
arguments, so it keeps no state between calls and performs no buffering or
batching. -/
theorem c8_addMessage_single (t : DateTime) (message : String) :
    addMessage t message =
        [Event.message (strfTime t ++ " : " ++ message ++ " \n \n")]
    ∧ (addMessage t message).length = 1 :=
  ⟨rfl, rfl⟩

/-- C9: the catch-all handlers in `createSPCPoint` and `createBuffers` are
total only when the caught exception's args tuple is non-empty with a
string first element: evaluating `e.args[0] + '\n \n'` raises `IndexError`
on an empty tuple and `TypeError` on a non-string first element, and in
those cases the new exception escapes the step function unhandled;
conversely a string first element makes the handler return normally. -/
theorem c9_handler_totality (e : PyExc) :
    (e.args = [] → handleExc e = Except.error indexErr)
    ∧ (∀ v rest, e.args = v :: rest → (∀ s, v ≠ PyVal.str s) →
        handleExc e = Except.error typeErr)
    ∧ (∀ A clock fuel lat lon outLayer clk,
        A.mkPointExc lon lat = Option.none →
        A.project outLayer 2272 transformName = Except.error e → e.args = [] →
        (createSPCPoint A clock fuel lat lon outLayer clk).outcome
          = Outcome.exc indexErr)
    ∧ (∀ v rest, e.args = v :: rest → (∀ s, v ≠ PyVal.str s) →
        ∀ A clock fuel lat lon outLayer clk,
          A.mkPointExc lon lat = Option.none →
          A.project outLayer 2272 transformName = Except.error e →
          (createSPCPoint A clock fuel lat lon outLayer clk).outcome
            = Outcome.exc typeErr)
    ∧ (∀ A clock fuel glat glon point outLayer distances units clk,
        A.multiRingBuffer point outLayer distances units = Except.error e →
        e.args = [] →
        (createBuffers A clock fuel glat glon point outLayer distances units clk).outcome
          = Outcome.exc indexErr)
    ∧ (strFirst e = true → ∃ evs, handleExc e = Except.ok evs) := by
  refine ⟨?_, ?_, ?_, ?_, ?_, ?_⟩
  · intro h
    unfold handleExc
    rw [h]
  · intro v rest h hv
    unfold handleExc
    rw [h]
    cases v with
    | str s => exact absurd rfl (hv s)
    | int n => rfl
    | noneV => rfl
  · intro A clock fuel lat lon outLayer clk hP hPr hargs
    rw [createSPCPoint_project_exc A clock fuel lat lon outLayer clk e hP hPr,
      onExc_empty_args _ _ _ hargs]
  · intro v rest h hv A clock fuel lat lon outLayer clk hP hPr
    rw [createSPCPoint_project_exc A clock fuel lat lon outLayer clk e hP hPr,
      onExc_nonstr_args _ _ _ v rest h hv]
  · intro A clock fuel glat glon point outLayer distances units clk hB hargs
    rw [createBuffers_exc A clock fuel glat glon point outLayer distances units clk e hB,
      onExc_empty_args _ _ _ hargs]
  · intro h
    obtain ⟨s, hs⟩ := handleExc_ok_of_strFirst e h
    exact ⟨_, hs⟩

theorem c9_handler_totality_witness :
    handleExc emptyArgsExc = Except.error indexErr
    ∧ (createSPCPoint cexEnv cClock 3 "40.0" "-77.0" "ol" 1).outcome = Outcome.exc indexErr
    ∧ (∃ evs, handleExc wfExc = Except.ok evs) := by
  refine ⟨?_, ?_, ?_⟩
  · exact (c9_handler_totality emptyArgsExc).1 rfl
  · exact (c9_handler_totality emptyArgsExc).2.2.1 cexEnv cClock 3 "40.0" "-77.0" "ol" 1
      rfl rfl rfl
  · exact (c9_handler_totality wfExc).2.2.2.2.2 rfl

/-- C10: the success message logged by `createBuffers` is built from the
module-level globals `lat` and `lon` (the `glat`, `glon` parameters, which
`runTool` binds to dialog inputs 0 and 1), not from the `point` argument:
for any `point` the final logged message carries exactly the two global
strings. -/
theorem c10_success_message_globals (A : Arcpy) (clock : Nat → DateTime) (fuel : Nat)
    (glat glon point outLayer distances units : String) (clk : Nat) (r : GPResult) (n : Nat)
    (h : A.multiRingBuffer point outLayer distances units = Except.ok r)
    (hc : pollCount r.status fuel 0 = some n) :
    (createBuffers A clock fuel glat glon point outLayer distances units clk).trace =
      [Event.callBuffer point outLayer distances units] ++
        List.replicate n (Event.sleepTenths 2) ++
        [Event.message (r.messagesText ++ "\n \n")] ++
        [Event.message (strfTime (clock clk) ++ " : " ++
          ("Created buffer(s) around location latitude: " ++ glat ++
            "; longitude: " ++ glon ++ ".") ++ " \n \n")] := by
  rw [createBuffers_ok A clock fuel glat glon point outLayer distances units clk r n h hc]
  rfl

theorem c10_success_message_globals_witness :
    (createBuffers okEnv cClock 3 "40.0" "-77.0" "pt" "ol" "1;2" "Miles" 1).trace =
      [Event.callBuffer "pt" "ol" "1;2" "Miles"] ++
        List.replicate 0 (Event.sleepTenths 2) ++
        [Event.message ("gp messages" ++ "\n \n")] ++
        [Event.message (strfTime (cClock 1) ++ " : " ++
          ("Created buffer(s) around location latitude: " ++ "40.0" ++
            "; longitude: " ++ "-77.0" ++ ".") ++ " \n \n")] :=
  c10_success_message_globals okEnv cClock 3 "40.0" "-77.0" "pt" "ol" "1;2" "Miles" 1
    okResult 0 rfl rfl

theorem createSPCPoint_outcome_ok (A : Arcpy) (clock : Nat → DateTime) (fuel : Nat)
    (lat lon outLayer : String) (clk : Nat)
    (hP : ∀ e, A.mkPointExc lon lat = some e → strFirst e = true)
    (hPr : ∀ e, A.project outLayer 2272 transformName = Except.error e → strFirst e = true)
    (hT : ∀ r, A.project outLayer 2272 transformName = Except.ok r →
      ∃ n, pollCount r.status fuel 0 = some n) :
    (createSPCPoint A clock fuel lat lon outLayer clk).outcome = Outcome.ok := by
  cases hp : A.mkPointExc lon lat with
  | some ex =>
    rw [createSPCPoint_point_exc A clock fuel lat lon outLayer clk ex hp]
    exact (onExc_ok_of_strFirst _ _ _ (hP ex hp)).1
  | none =>
    cases hpr : A.project outLayer 2272 transformName with
    | error ex =>
      rw [createSPCPoint_project_exc A clock fuel lat lon outLayer clk ex hp hpr]
      exact (onExc_ok_of_strFirst _ _ _ (hPr ex hpr)).1
    | ok r =>
      obtain ⟨n, hn⟩ := hT r hpr
      rw [createSPCPoint_ok A clock fuel lat lon outLayer clk r n hp hpr hn]

theorem createSPCPoint_generic_error (A : Arcpy) (clock : Nat → DateTime) (fuel : Nat)
    (lat lon outLayer : String) (clk : Nat)
    (hP : ∀ e, A.mkPointExc lon lat = some e → strFirst e = true)
    (hPr : ∀ e, A.project outLayer 2272 transformName = Except.error e → strFirst e = true)
    (ex : PyExc) (hfail : A.project outLayer 2272 transformName = Except.error ex) :
    Event.errorMsg "There was an error running this tool \n \n" ∈
      (createSPCPoint A clock fuel lat lon outLayer clk).trace := by
  cases hp : A.mkPointExc lon lat with
  | some e2 =>
    rw [createSPCPoint_point_exc A clock fuel lat lon outLayer clk e2 hp]
    exact (onExc_ok_of_strFirst _ _ _ (hP e2 hp)).2
  | none =>
    rw [createSPCPoint_project_exc A clock fuel lat lon outLayer clk ex hp hfail]
    exact (onExc_ok_of_strFirst _ _ _ (hPr ex hfail)).2

/-- C1 (amended): each step's `except Exception` block catches every
exception its try block raises; provided every caught exception's args
tuple starts with a string and the polling loop finds completion, the
projection step logs any failure and returns normally, and the top-level
sequence then invokes `createBuffers` after `createSPCPoint` regardless of
whether projection failed: a projection failure still leads to the buffer
operation being invoked, with the failure logged on the error channel. -/
theorem c1_failure_continues_to_buffers (A : Arcpy) (clock : Nat → DateTime) (fuel : Nat)
    (hP : ∀ e, A.mkPointExc (A.params 1) (A.params 0) = some e → strFirst e = true)
    (hPr : ∀ e, A.project (A.params 2) 2272 transformName = Except.error e →
      strFirst e = true)
    (hT : ∀ r, A.project (A.params 2) 2272 transformName = Except.ok r →
      ∃ n, pollCount r.status fuel 0 = some n) :
    (createSPCPoint A clock fuel (A.params 0) (A.params 1) (A.params 2) 1).outcome
        = Outcome.ok
    ∧ Event.callBuffer (A.params 2) (A.params 5) (A.params 3) (A.params 4) ∈
        (runTool A clock fuel).1
    ∧ (∀ ex, A.project (A.params 2) 2272 transformName = Except.error ex →
        Event.errorMsg "There was an error running this tool \n \n" ∈
          (runTool A clock fuel).1) := by
  have h1 := createSPCPoint_outcome_ok A clock fuel (A.params 0) (A.params 1) (A.params 2) 1
    hP hPr hT
  refine ⟨h1, ?_, ?_⟩
  · rw [runTool_ok_step1 A clock fuel h1]
    exact mem_runStage2_right _ _ _ _
      (callBuffer_mem_createBuffers A clock fuel _ _ _ _ _ _ _)
  · intro ex hex
    rw [runTool_ok_step1 A clock fuel h1]
    exact mem_runStage2_left _ _ _ _
      (List.mem_append_right _
        (createSPCPoint_generic_error A clock fuel (A.params 0) (A.params 1) (A.params 2) 1
          hP hPr ex hex))

/-- C1 fails as stated: when the projection step's engine exception has an
empty args tuple, `createSPCPoint` does not return normally (the handler's
own `IndexError` escapes), the whole run aborts with that `IndexError`,
and the buffer operation is never invoked. -/
theorem c1_failure_continues_to_buffers_cex :
    (createSPCPoint cexEnv cClock 3 (cexEnv.params 0) (cexEnv.params 1)
        (cexEnv.params 2) 1).outcome = Outcome.exc indexErr
    ∧ (runTool cexEnv cClock 3).2 = Outcome.exc indexErr
    ∧ (runTool cexEnv cClock 3).1.all (fun e => !e.isCallBuffer) = true :=
  ⟨rfl, rfl, rfl⟩

theorem c1_failure_continues_to_buffers_witness :
    (createSPCPoint wfFailEnv cClock 3 (wfFailEnv.params 0) (wfFailEnv.params 1)
        (wfFailEnv.params 2) 1).outcome = Outcome.ok
    ∧ Event.callBuffer (wfFailEnv.params 2) (wfFailEnv.params 5) (wfFailEnv.params 3)
        (wfFailEnv.params 4) ∈ (runTool wfFailEnv cClock 3).1
    ∧ (∀ ex, wfFailEnv.project (wfFailEnv.params 2) 2272 transformName = Except.error ex →
        Event.errorMsg "There was an error running this tool \n \n" ∈
          (runTool wfFailEnv cClock 3).1) :=
  c1_failure_continues_to_buffers wfFailEnv cClock 3
    (fun e h => Option.noConfusion h)
    (fun e h => (Except.error.inj h) ▸ rfl)
    (fun r h => Except.noConfusion h)

theorem modelArcpy_mkPointExc (params : Nat → String) (proj buf : Except PyExc GPResult) :
    (modelArcpy params proj buf).mkPointExc = modelMkPointExc := rfl

/-- C2: for every non-numeric latitude input — under the spec-modelled
arcpy engine, whose `Point` constructor raises a `ValueError` carrying an
error string when an argument fails float coercion — `createSPCPoint`
writes error text to the host error channel and returns normally: no
unhandled fault escapes the function. -/
theorem c2_nonnumeric_latitude (params : Nat → String) (proj buf : Except PyExc GPResult)
    (clock : Nat → DateTime) (fuel : Nat) (lat lon outLayer : String) (clk : Nat)
    (h : isNumeric lat = false) :
    (createSPCPoint (modelArcpy params proj buf) clock fuel lat lon outLayer clk).outcome
        = Outcome.ok
    ∧ Event.errorMsg "There was an error running this tool \n \n" ∈
        (createSPCPoint (modelArcpy params proj buf) clock fuel lat lon outLayer clk).trace := by
  have hm : ∃ s, (modelArcpy params proj buf).mkPointExc lon lat =
      some ⟨"ValueError", [PyVal.str s]⟩ := by
    rw [modelArcpy_mkPointExc]
    unfold modelMkPointExc
    by_cases hl : isNumeric lon = true
    · rw [if_pos hl, if_neg (by rw [h]; exact Bool.false_ne_true)]
      exact ⟨_, rfl⟩
    · rw [if_neg hl]
      exact ⟨_, rfl⟩
  obtain ⟨s, hs⟩ := hm
  rw [createSPCPoint_point_exc _ clock fuel lat lon outLayer clk _ hs]
  exact onExc_ok_of_strFirst _ _ _ rfl

theorem c2_nonnumeric_latitude_witness :
    (createSPCPoint (modelArcpy (fun i => "p" ++ toString i)
          (Except.ok okResult) (Except.ok okResult))
        cClock 3 "abc" "-77.0" "ol" 1).outcome = Outcome.ok
    ∧ Event.errorMsg "There was an error running this tool \n \n" ∈
        (createSPCPoint (modelArcpy (fun i => "p" ++ toString i)
              (Except.ok okResult) (Except.ok okResult))
            cClock 3 "abc" "-77.0" "ol" 1).trace :=
  c2_nonnumeric_latitude (fun i => "p" ++ toString i) (Except.ok okResult)
    (Except.ok okResult) cClock 3 "abc" "-77.0" "ol" 1 (by decide)

theorem acquireParams_noSetExit (A : Arcpy) :
    ∀ e ∈ acquireParams A, Event.isSetExit e = false := by
  intro e he
  simp only [acquireParams, List.mem_cons, List.mem_singleton, List.not_mem_nil,
    or_false] at he
  rcases he with rfl | rfl | rfl | rfl | rfl | rfl <;> rfl

theorem countP_runStage2 (clock : Nat → DateTime) (pre : List Event) (s2 : StepRes) :
    ((runStage2 clock pre s2).1.countP Event.isGetParam) =
      pre.countP Event.isGetParam + s2.trace.countP Event.isGetParam := by
  unfold runStage2
  split
  · simp [List.countP_append, addMessage, Event.isGetParam]
  · simp [List.countP_append]

theorem countP_getParam_spc (A : Arcpy) (clock : Nat → DateTime) (fuel : Nat)
    (lat lon outLayer : String) (clk : Nat) :
    ((createSPCPoint A clock fuel lat lon outLayer clk).trace.countP Event.isGetParam) = 0 :=
  List.countP_eq_zero.mpr (fun e he => by
    have h := (spcEvent_cases outLayer e
      (createSPCPoint_shape A clock fuel lat lon outLayer clk e he)).1
    simp [h])

theorem countP_getParam_buf (A : Arcpy) (clock : Nat → DateTime) (fuel : Nat)
    (glat glon point outLayer distances units : String) (clk : Nat) :
    ((createBuffers A clock fuel glat glon point outLayer distances units clk).trace.countP
      Event.isGetParam) = 0 :=
  List.countP_eq_zero.mpr (fun e he => by
    have h := (bufEvent_cases point outLayer distances units e
      (createBuffers_shape A clock fuel glat glon point outLayer distances units clk e he)).1
    simp [h])

theorem countP_preTrace (A : Arcpy) (clock : Nat → DateTime) :
    (preTrace A clock).countP Event.isGetParam = 6 := rfl

/-- C5 fails as stated: on a concrete run the number of host-dialog
parameter reads is 6 (`GetParameterAsText` indices 0 through 5), not 5. -/
theorem c5_five_parameters_cex :
    (runTool okEnv cClock 3).1.countP Event.isGetParam = 6
    ∧ ¬((runTool okEnv cClock 3).1.countP Event.isGetParam = 5) := by
  constructor
  · rfl
  · decide

/-- C5 (amended): in every run the program acquires exactly 6 scalar
parameters from the host dialog (indices 0-5: latitude, longitude, output
point path, buffer distances, buffer unit, output buffer path). -/
theorem c5_six_parameters (A : Arcpy) (clock : Nat → DateTime) (fuel : Nat) :
    (runTool A clock fuel).1.countP Event.isGetParam = 6 := by
  by_cases h1 : (createSPCPoint A clock fuel (A.params 0) (A.params 1) (A.params 2) 1).outcome
      = Outcome.ok
  · rw [runTool_ok_step1 A clock fuel h1, countP_runStage2, List.countP_append,
      countP_preTrace, countP_getParam_spc, countP_getParam_buf]
  · rw [runTool_bad_step1 A clock fuel h1]
    simp only [List.countP_append, countP_preTrace, countP_getParam_spc]

/-- C6: every invocation of the multi-ring buffer operation in any run
carries the dialog's buffer-distance string (parameter 3) and buffer-unit
string (parameter 4) verbatim, with no parsing or transformation (likewise
the projected point path, parameter 2, and the output path, parameter 5);
and whenever the projection step returns normally the operation is invoked
with exactly those strings. -/
theorem c6_verbatim_buffer_args (A : Arcpy) (clock : Nat → DateTime) (fuel : Nat) :
    (∀ p o d u, Event.callBuffer p o d u ∈ (runTool A clock fuel).1 →
      p = A.params 2 ∧ o = A.params 5 ∧ d = A.params 3 ∧ u = A.params 4)
    ∧ ((createSPCPoint A clock fuel (A.params 0) (A.params 1) (A.params 2) 1).outcome
          = Outcome.ok →
        Event.callBuffer (A.params 2) (A.params 5) (A.params 3) (A.params 4) ∈
          (runTool A clock fuel).1) := by
  constructor
  · intro p o d u h
    rcases runTool_shape A clock fuel _ h with h | ⟨s, hs⟩ | h | h
    · exact absurd (acquireParams_getParam A _ h) (by simp [Event.isGetParam])
    · exact absurd hs (by simp)
    · exact absurd h (by simp [spcEvent])
    · exact bufEvent_callBuffer _ _ _ _ p o d u h
  · intro h1
    rw [runTool_ok_step1 A clock fuel h1]
    exact mem_runStage2_right _ _ _ _
      (callBuffer_mem_createBuffers A clock fuel _ _ _ _ _ _ _)

theorem c6_verbatim_buffer_args_witness :
    "p2" = okEnv.params 2 ∧ "p5" = okEnv.params 5
    ∧ "p3" = okEnv.params 3 ∧ "p4" = okEnv.params 4 :=
  (c6_verbatim_buffer_args okEnv cClock 3).1 "p2" "p5" "p3" "p4" (by decide)

/-- C7: in every run, whether or not either step fails, the program never
sets a process exit status: no event of any trace is an exit-status event,
so the termination status the program sets is indistinguishable from
success, and failures surface only as error text on the host error
channel. -/
theorem c7_no_exit_status (A : Arcpy) (clock : Nat → DateTime) (fuel : Nat) :
    ∀ e ∈ (runTool A clock fuel).1, Event.isSetExit e = false := by
  intro e he
  rcases runTool_shape A clock fuel e he with h | ⟨s, rfl⟩ | h | h
  · exact acquireParams_noSetExit A e h
  · rfl
  · exact (spcEvent_cases _ e h).2.1
  · exact (bufEvent_cases _ _ _ _ e h).2

theorem c7_no_exit_status_witness :
    Event.isSetExit (Event.getParam 0 (okEnv.params 0)) = false :=
  c7_no_exit_status okEnv cClock 3 (Event.getParam 0 (okEnv.params 0)) (by decide)
